import Mathlib

/-!
Shallow embedding of `src/solvers/chop.py`, the benchopt solver adapter for
the chop library on the L2-regularized logistic-regression benchmark, together
with theorems checking the adapter's specification against this embedding.

Modelling conventions:

* Machine floating-point values are modelled as rationals (`ℚ`); none of the
  properties below depends on rounding.
* Tensors carry their data together with a dtype and a device, mirroring the
  torch attributes the adapter inspects.
* Fallible Python code is modelled with `Except PyError`; a raised exception is
  an `Except.error`.
* Python name resolution matters here: the functions `run_stochastic` (line 89)
  and the `logloss` closure inside `run_full_batch` (lines 115-117) read the
  bare names `X` and `y`, which are neither locals of those scopes nor
  module-level bindings (only the attributes `self.X`, `self.y` exist).  The
  module's bindings and the relevant local scopes are reproduced below, so the
  resulting `NameError` is derived rather than postulated.
* The external libraries (torch's `DataLoader`, chop's `stochastic.PGD` and
  `optim.minimize_pgd`) are out of the adapter's scope; only the behaviour the
  adapter relies on is modelled, and each such model is marked in its doc
  comment.
-/

namespace Chop

/-- Torch dtypes that occur in the adapter. -/
inductive DType where
  | float32
  | float64
deriving DecidableEq

/-- Compute devices, mirroring the `device` parameter values `cpu` / `cuda`. -/
inductive Device where
  | cpu
  | cuda
deriving DecidableEq

/-- The `normalization` parameter values `none`, `L2`, `Linf`, `sign`. -/
inductive Normalization where
  | none
  | L2
  | Linf
  | sign
deriving DecidableEq

/-- The `batch_size` parameter: a positive integer such as 32/128/200, or the
sentinel string `full`. -/
inductive BatchSize where
  | num (n : Nat)
  | full
deriving DecidableEq

/-- The adapter's configuration: one combination drawn from the `parameters`
mapping of the `Solver` class (lines 18-26). -/
structure Config where
  solver : String
  line_search : Bool
  stochastic : Bool
  batch_size : BatchSize
  normalization : Normalization
  momentum : ℚ
  device : Device
deriving DecidableEq

/-- A 1-D torch tensor: data with dtype and device. -/
structure Tensor1 where
  data : List ℚ
  dtype : DType
  device : Device
deriving DecidableEq

/-- A 2-D torch tensor (or input array): rows of data with dtype and device. -/
structure Tensor2 where
  data : List (List ℚ)
  dtype : DType
  device : Device
deriving DecidableEq

/-- `X.shape[0]`: the number of rows (samples). -/
def Tensor2.nSamples (t : Tensor2) : Nat := t.data.length

/-- `X.shape[1]`: the number of columns (features), read off the first row as
`_, n_features = X.shape` does for a rectangular array. -/
def Tensor2.nFeatures (t : Tensor2) : Nat := (t.data.headD []).length

/-- Python exceptions raised by the adapter or by calls it makes. -/
inductive PyError where
  | NameError (name : String)
  | NotImplementedError
  | ValueError (msg : String)
  | AttributeError (attr : String)
deriving DecidableEq

/-! ### Name resolution

The module-level bindings of `src/solvers/chop.py`: the imports at lines 1-9
and the `Solver` class itself.  Neither `X` nor `y` is among them, and neither
is a Python builtin. -/

/-- Names bound at module level in `src/solvers/chop.py`. -/
def moduleBindings : List String :=
  ["warnings", "os", "BaseSolver", "safe_import_context", "TensorDataset",
   "torch", "DataLoader", "chop", "import_ctx", "Solver"]

/-- Resolve a bare name against a local scope and the module bindings;
an unbound name raises `NameError` (no relevant builtin exists here). -/
def resolveName (locals : List String) (n : String) : Except PyError Unit :=
  if locals.contains n || moduleBindings.contains n then Except.ok ()
  else Except.error (PyError.NameError n)

/-- The local names assigned anywhere in `run_stochastic` (lines 70-103),
plus the parameters `self` and `n_iter`.  `X` is not among them: line 89
reads `X.size(0)` and must fall back to the module bindings. -/
def runStochasticLocals : List String :=
  ["self", "n_iter", "dataset", "loader", "x", "optimizer", "counter",
   "alpha", "data", "target", "pred", "loss"]

/-- The names visible inside the `logloss` closure (lines 113-119): its
parameter and locals, and the enclosing `run_full_batch` locals it can close
over.  Neither `X` (line 115) nor `y` (line 117) is among them. -/
def loglossScope : List String :=
  ["x", "alpha", "out", "loss", "reg", "self", "n_iter", "x0", "logloss",
   "step", "result"]

/-! ### The skip check (`Solver.skip`, lines 28-56) -/

/-- `Solver.skip`: decide whether a configuration is degenerate.  Takes the
problem data exactly as the Python method does; the body never inspects it.
`cuda_available` models `torch.cuda.is_available()`.  (Quotation marks inside
the Python reason strings are elided.) -/
def skip (cfg : Config) (cuda_available : Bool) (X : Tensor2) (y : Tensor1)
    (lmbd : ℚ) : Bool × Option String :=
  if cfg.device = Device.cuda ∧ cuda_available = false then
    (true, some "CUDA is not available.")
  else if cfg.stochastic = false ∧ cfg.batch_size ≠ BatchSize.full then
    (true, some "We only run stochastic=False if batch_size==full.")
  else if cfg.stochastic = true then
    if cfg.batch_size = BatchSize.full then
      (true, some "We do not perform full batch optimization with a stochastic optimizer.")
    else if cfg.line_search = true then
      (true, some "We do not perform line-search with a stochastic optimizer.")
    else (false, none)
  else
    if cfg.normalization ≠ Normalization.none then
      (true, some "Normalizations are not used for full batch optimizers.")
    else if cfg.momentum ≠ 0 then
      (true, some "Momentum has no impact on full batch optimizers.")
    else (false, none)

/-! ### Problem setup (`Solver.set_objective`, lines 58-68) -/

/-- The adapter's state after `set_objective`: the stored problem instance and
initial point, plus the `beta` attribute which only exists after a `run`. -/
structure SolverState where
  cfg : Config
  lmbd : ℚ
  X : Tensor2
  y : Tensor1
  x0 : Tensor1
  beta : Option Tensor1
deriving DecidableEq

/-- `Solver.set_objective`:
`self.X = torch.tensor(X).to(device)` keeps the input's dtype and moves it to
the configured device; `self.y = torch.tensor(y > 0, dtype=torch.float64)`
binarizes the labels at zero into a float64 tensor;
`self.x0 = torch.zeros(n_features, dtype=X.dtype, device=X.device)` takes the
dtype and device of the *input* matrix `X`, not of the stored `self.X`. -/
def set_objective (cfg : Config) (X : Tensor2) (y : Tensor1) (lmbd : ℚ) :
    SolverState :=
  { cfg := cfg
    lmbd := lmbd
    X := { data := X.data, dtype := X.dtype, device := cfg.device }
    y := { data := y.data.map (fun v => if 0 < v then (1 : ℚ) else 0)
           dtype := DType.float64
           device := cfg.device }
    x0 := { data := List.replicate X.nFeatures 0
            dtype := X.dtype
            device := X.device }
    beta := none }

/-! ### Stochastic run path (`Solver.run_stochastic`, lines 70-103)

A run returns the new solver state (or the raised exception, which leaves the
state unchanged since `self` is only written at the very end) paired with the
number of optimizer steps it executed (the Python `counter`). -/

/-- Modelled from the spec of torch's `DataLoader` (external library):
construction at line 73 requires a positive integer `batch_size`; the sentinel
`full` or zero is rejected with a `ValueError` before anything else runs.
The batches themselves are irrelevant below: the optimization loop is
unreachable (see `run_stochastic`). -/
def dataLoaderCheck (bs : BatchSize) : Except PyError Unit :=
  match bs with
  | BatchSize.num n =>
      if 0 < n then Except.ok ()
      else Except.error (PyError.ValueError "batch_size should be a positive integer value")
  | BatchSize.full =>
      Except.error (PyError.ValueError "batch_size should be a positive integer value")

/-- `Solver.run_stochastic`.  In source order: the `DataLoader` is built
(line 73), the variable `x` is cloned from `self.x0` (lines 76-77, leaving
`self.x0` untouched), the solver name is dispatched (lines 79-84, raising
`NotImplementedError` for anything but `pgd`), and then line 89 evaluates
`alpha = self.lmbd / X.size(0)`.  The name `X` is unbound in this scope
(`runStochasticLocals`, `moduleBindings`), so line 89 raises `NameError`
before the `while` loop at lines 91-101 can execute a single step: the step
counter is still 0 and `self.beta` is never assigned. -/
def run_stochastic (s : SolverState) (n_iter : Nat) :
    Except PyError SolverState × Nat :=
  match dataLoaderCheck s.cfg.batch_size with
  | Except.error e => (Except.error e, 0)
  | Except.ok _ =>
    if s.cfg.solver = "pgd" then
      match resolveName runStochasticLocals "X" with
      | Except.error e => (Except.error e, 0)
      | Except.ok _ =>
          -- Not reachable (`resolveName_run_stochastic_X`): the loop over the
          -- loader at lines 91-101 is dead code, so the state is returned as
          -- a placeholder here.
          (Except.ok s, 0)
    else (Except.error PyError.NotImplementedError, 0)

/-! ### Full-batch run path (`Solver.run_full_batch`, lines 105-137) -/

/-- The `logloss` closure (lines 112-119).  Its first statement,
`alpha = self.lmbd / X.size(0)` at line 115, reads the bare name `X`, which is
unbound in the closure's scope (`loglossScope`, `moduleBindings`); every
evaluation of the closure therefore raises `NameError` and the BCE-plus-L2
body at lines 116-119 is dead code. -/
def logloss (s : SolverState) (x : List ℚ) : Except PyError ℚ :=
  match resolveName loglossScope "X" with
  | Except.error e => Except.error e
  | Except.ok _ =>
      -- Not reachable (`resolveName_logloss_X`); placeholder value.
      Except.ok 0

/-- Modelled from the spec of `chop.optim.minimize_pgd` (external library,
spec §4.4): whether `step` is `backtracking` or `None`, the step size comes
from a backtracking line search, which evaluates the objective closure — so
the closure runs at least once (at the initial point) and any exception it
raises propagates.  The successful optimization outcome is opaque to the
adapter (spec §1 places it out of scope) and is modelled as returning the
initial point; no claim below depends on that branch, which is unreachable
because `logloss` always raises. -/
def minimize_pgd (f : List ℚ → Except PyError ℚ) (x0 : List ℚ)
    (max_iter : Nat) : Except PyError (List ℚ) :=
  match f x0 with
  | Except.error e => Except.error e
  | Except.ok _ => Except.ok x0

/-- `Solver.run_full_batch`: reshape `self.x0` (line 110, no mutation),
dispatch on the solver name (lines 122-135, raising `NotImplementedError` for
anything but `pgd`), and call `minimize_pgd` on the `logloss` closure.  The
closure's `NameError` propagates, so `self.beta` is never assigned. -/
def run_full_batch (s : SolverState) (n_iter : Nat) :
    Except PyError SolverState × Nat :=
  if s.cfg.solver = "pgd" then
    match minimize_pgd (logloss s) s.x0.data n_iter with
    | Except.error e => (Except.error e, 0)
    | Except.ok xs =>
        (Except.ok { s with beta := some { data := xs, dtype := s.x0.dtype,
                                           device := s.x0.device } }, n_iter)
  else (Except.error PyError.NotImplementedError, 0)

/-! ### Entry point and result extraction (`Solver.run`, `Solver.get_result`,
lines 139-153) -/

/-- `Solver.run`: with `n_iter == 0` short-circuit, setting `self.beta` to the
untouched `self.x0` without invoking any optimizer; otherwise dispatch on the
`stochastic` flag (the `warnings.filterwarnings` call only mutes
`RuntimeWarning`s and has no bearing on the state). -/
def run (s : SolverState) (n_iter : Nat) : Except PyError SolverState × Nat :=
  if n_iter = 0 then (Except.ok { s with beta := some s.x0 }, 0)
  else if s.cfg.stochastic then run_stochastic s n_iter
  else run_full_batch s n_iter

/-- `Solver.get_result`: `self.beta.detach().cpu().numpy().flatten()` — the
data of `beta` as a flat host array; reading `beta` before any `run` raises
`AttributeError`. -/
def get_result (s : SolverState) : Except PyError (List ℚ) :=
  match s.beta with
  | some b => Except.ok b.data
  | none => Except.error (PyError.AttributeError "beta")

/-- A sequence of `run` calls as the benchmark harness performs them; a call
that raises leaves the state as it was (the exception propagates out of the
adapter, which has not yet written `self.beta`). -/
def runSeq (s : SolverState) (ns : List Nat) : SolverState :=
  ns.foldl (fun st n =>
    match (run st n).1 with
    | Except.ok st' => st'
    | Except.error _ => st) s

/-! ### Helper lemmas -/

/-- `X` is unbound in the scope of `run_stochastic`. -/
theorem resolveName_run_stochastic_X :
    resolveName runStochasticLocals "X" = Except.error (PyError.NameError "X") := rfl

/-- `X` is unbound in the scope of the `logloss` closure. -/
theorem resolveName_logloss_X :
    resolveName loglossScope "X" = Except.error (PyError.NameError "X") := rfl

/-- The exception `run_stochastic` raises, as a function of the configuration
alone: the `DataLoader` error for a non-positive or sentinel batch size,
otherwise `NotImplementedError` for a non-`pgd` solver, otherwise the
`NameError` from line 89. -/
def stochErr (cfg : Config) : PyError :=
  match dataLoaderCheck cfg.batch_size with
  | Except.error e => e
  | Except.ok _ =>
      if cfg.solver = "pgd" then PyError.NameError "X"
      else PyError.NotImplementedError

/-- The exception `run_full_batch` raises, as a function of the configuration
alone. -/
def fullErr (cfg : Config) : PyError :=
  if cfg.solver = "pgd" then PyError.NameError "X"
  else PyError.NotImplementedError

/-- Every evaluation of the `logloss` closure raises `NameError` on `X`. -/
theorem logloss_eq (s : SolverState) (x : List ℚ) :
    logloss s x = Except.error (PyError.NameError "X") := rfl

/-- `run_stochastic` always raises, executing zero optimizer steps. -/
theorem run_stochastic_eq (s : SolverState) (n : Nat) :
    run_stochastic s n = (Except.error (stochErr s.cfg), 0) := by
  unfold run_stochastic stochErr
  cases h : dataLoaderCheck s.cfg.batch_size with
  | error e => rfl
  | ok u =>
      by_cases hs : s.cfg.solver = "pgd" <;>
        simp [hs, resolveName_run_stochastic_X]

/-- `run_full_batch` always raises, executing zero optimizer steps. -/
theorem run_full_batch_eq (s : SolverState) (n : Nat) :
    run_full_batch s n = (Except.error (fullErr s.cfg), 0) := by
  unfold run_full_batch fullErr minimize_pgd
  by_cases hs : s.cfg.solver = "pgd" <;> simp [hs, logloss_eq]

/-- Closed form of `run`: the `n_iter = 0` short-circuit succeeds, every other
call raises an exception determined by the configuration alone. -/
theorem run_eq (s : SolverState) (n : Nat) :
    run s n = if n = 0 then (Except.ok { s with beta := some s.x0 }, 0)
      else (Except.error
        (if s.cfg.stochastic then stochErr s.cfg else fullErr s.cfg), 0) := by
  unfold run
  by_cases hn : n = 0
  · simp [hn]
  · by_cases hs : s.cfg.stochastic <;>
      simp [hn, hs, run_stochastic_eq, run_full_batch_eq]

/-- Unfolding one step of `runSeq`. -/
theorem runSeq_step (s : SolverState) (n : Nat) (ns : List Nat) :
    runSeq s (n :: ns) =
      if n = 0 then runSeq { s with beta := some s.x0 } ns else runSeq s ns := by
  by_cases hn : n = 0 <;> simp [runSeq, run_eq, hn]

/-- A sequence of `run` calls can only ever write `beta`: the configuration
and the initial point survive unchanged. -/
theorem runSeq_preserves (s : SolverState) (ns : List Nat) :
    (runSeq s ns).cfg = s.cfg ∧ (runSeq s ns).x0 = s.x0 := by
  induction ns generalizing s with
  | nil => exact ⟨rfl, rfl⟩
  | cons n ns ih =>
      rw [runSeq_step]
      by_cases hn : n = 0
      · rw [if_pos hn]; exact ih { s with beta := some s.x0 }
      · rw [if_neg hn]; exact ih s

/-! ### Concrete instances used in counterexamples and witnesses -/

/-- A small 2-by-2 single-precision design matrix on the cpu. -/
def Xex : Tensor2 :=
  { data := [[1, 0], [0, 1]], dtype := DType.float32, device := Device.cpu }

/-- Labels 1 and -1, to be binarized to 1.0 and 0.0. -/
def yex : Tensor1 :=
  { data := [1, -1], dtype := DType.float64, device := Device.cpu }

/-- A valid stochastic configuration: pgd, batch size 32, cpu. -/
def cfgStoch : Config :=
  { solver := "pgd", line_search := false, stochastic := true,
    batch_size := BatchSize.num 32, normalization := Normalization.none,
    momentum := 0, device := Device.cpu }

/-- A valid full-batch configuration: pgd, batch size `full`, cpu. -/
def cfgFull : Config :=
  { solver := "pgd", line_search := false, stochastic := false,
    batch_size := BatchSize.full, normalization := Normalization.none,
    momentum := 0, device := Device.cpu }

/-- A full-batch configuration whose device is cuda while the input matrix
lives on the cpu. -/
def cfgCudaFull : Config :=
  { solver := "pgd", line_search := false, stochastic := false,
    batch_size := BatchSize.full, normalization := Normalization.none,
    momentum := 0, device := Device.cuda }

/-- A degenerate configuration: stochastic with the `full` batch sentinel. -/
def cfgDegen : Config :=
  { solver := "pgd", line_search := false, stochastic := true,
    batch_size := BatchSize.full, normalization := Normalization.none,
    momentum := 0, device := Device.cpu }

/-- A stochastic configuration naming an unsupported solver. -/
def cfgBadSolver : Config :=
  { solver := "apgd", line_search := false, stochastic := true,
    batch_size := BatchSize.num 32, normalization := Normalization.none,
    momentum := 0, device := Device.cpu }

/-- Solver state for the valid stochastic configuration. -/
def sStoch : SolverState := set_objective cfgStoch Xex yex 1

/-- Solver state for the valid full-batch configuration. -/
def sFull : SolverState := set_objective cfgFull Xex yex 1

/-- Solver state for the unsupported-solver configuration. -/
def sBadSolver : SolverState := set_objective cfgBadSolver Xex yex 1

/-! ### Claim theorems -/

/-- Claim C1: for every configuration, the skip-check returns skip=true (with
a human-readable reason) if and only if at least one degenerate condition
holds — device is cuda and cuda is unavailable; or stochastic=false and
batch_size is not `full`; or stochastic=true and batch_size is `full`; or
stochastic=true and line_search=true; or stochastic=false and normalization
is not `none`; or stochastic=false and momentum is nonzero.  Otherwise it
returns `(false, none)`. -/
theorem skip_characterization (cfg : Config) (cuda_available : Bool)
    (X : Tensor2) (y : Tensor1) (lmbd : ℚ) :
    ((skip cfg cuda_available X y lmbd).1 = true ↔
      ((cfg.device = Device.cuda ∧ cuda_available = false) ∨
       (cfg.stochastic = false ∧ cfg.batch_size ≠ BatchSize.full) ∨
       (cfg.stochastic = true ∧ cfg.batch_size = BatchSize.full) ∨
       (cfg.stochastic = true ∧ cfg.line_search = true) ∨
       (cfg.stochastic = false ∧ cfg.normalization ≠ Normalization.none) ∨
       (cfg.stochastic = false ∧ cfg.momentum ≠ 0))) ∧
    ((skip cfg cuda_available X y lmbd).2.isSome ↔
      (skip cfg cuda_available X y lmbd).1 = true) ∧
    ((skip cfg cuda_available X y lmbd).1 = false ↔
      skip cfg cuda_available X y lmbd = (false, none)) := by
  unfold skip
  split_ifs with h1 h2 h3 h4 h5 h6 h7 <;> simp_all

/-- Witness for C1: a stochastic configuration with the `full` batch sentinel
is skipped. -/
theorem skip_characterization_witness :
    (skip cfgDegen true Xex yex 1).1 = true :=
  (skip_characterization cfgDegen true Xex yex 1).1.mpr
    (Or.inr (Or.inr (Or.inl ⟨rfl, rfl⟩)))

/-- Claim C2, counterexample: with a 2-sample dataset, batch size 32 and
`n_iter = 1`, the stochastic runner executes 0 optimizer steps, not 1 — it
raises a `NameError` (the unbound `X` at line 89) before its loop starts. -/
theorem run_stochastic_budget_counterexample :
    (run_stochastic sStoch 1).2 = 0 ∧ (run_stochastic sStoch 1).2 ≠ 1 ∧
    (run_stochastic sStoch 1).1 = Except.error (PyError.NameError "X") :=
  ⟨rfl, by decide, rfl⟩

/-- Claim C2 (amended): for every `n_iter` and every stochastic configuration
with solver `pgd` and a positive integer batch size, the stochastic runner
raises `NameError` on the unbound name `X` while computing the regularization
scale, before executing a single optimizer step; the step counter stays 0 and
no result is produced. -/
theorem run_stochastic_nameerror (s : SolverState) (n b : Nat)
    (hs : s.cfg.solver = "pgd") (hb : s.cfg.batch_size = BatchSize.num b)
    (hbpos : 0 < b) :
    run_stochastic s n = (Except.error (PyError.NameError "X"), 0) := by
  rw [run_stochastic_eq]
  simp [stochErr, dataLoaderCheck, hb, hbpos, hs]

/-- Witness for the amended C2. -/
theorem run_stochastic_nameerror_witness :
    run_stochastic sStoch 3 = (Except.error (PyError.NameError "X"), 0) :=
  run_stochastic_nameerror sStoch 3 32 rfl rfl (by decide)

/-- Claim C3, code-bug evaluation: the per-step loss is never computed.  Both
run paths read the bare name `X` (line 89 and line 115) where only the
attribute `self.X` exists, so every evaluation of the loss — and hence both
runners — raises `NameError` instead of producing the binary cross-entropy
plus L2 penalty value. -/
theorem loss_evaluation_nameerror :
    (∀ x : List ℚ, logloss sFull x = Except.error (PyError.NameError "X")) ∧
    (run_full_batch sFull 1).1 = Except.error (PyError.NameError "X") ∧
    (run_stochastic sStoch 1).1 = Except.error (PyError.NameError "X") :=
  ⟨fun _ => rfl, rfl, rfl⟩

/-- Claim C4: for every configuration, calling `run` with `n_iter = 0`
invokes no optimizer (zero steps) and the subsequently fetched result is the
all-zero vector of length `n_features`. -/
theorem run_zero_returns_zero_vector (cfg : Config) (X : Tensor2)
    (y : Tensor1) (lmbd : ℚ) :
    (run (set_objective cfg X y lmbd) 0).2 = 0 ∧
    ∃ s, (run (set_objective cfg X y lmbd) 0).1 = Except.ok s ∧
      get_result s = Except.ok (List.replicate X.nFeatures 0) :=
  ⟨rfl, ⟨_, rfl, rfl⟩⟩

/-- Claim C5, counterexample: with an input matrix on the cpu and the
configured device cuda, the initial point's device (cpu, copied from the
input `X.device` at line 67) differs from the stored design matrix's device
(cuda, where `set_objective` moved it). -/
theorem x0_device_mismatch_counterexample :
    (set_objective cfgCudaFull Xex yex 1).x0.device ≠
      (set_objective cfgCudaFull Xex yex 1).X.device := by
  decide

/-- Claim C5 (amended): after problem setup the initial point `x0` is a zero
vector of length `n_features` whose dtype and device are those of the *input*
design matrix; its dtype therefore also matches the stored matrix, but the
stored matrix lives on the configured device, so the devices agree only when
the input matrix already lives there. -/
theorem x0_matches_input_matrix (cfg : Config) (X : Tensor2) (y : Tensor1)
    (lmbd : ℚ) :
    (set_objective cfg X y lmbd).x0.data = List.replicate X.nFeatures 0 ∧
    (set_objective cfg X y lmbd).x0.dtype = X.dtype ∧
    (set_objective cfg X y lmbd).x0.device = X.device ∧
    (set_objective cfg X y lmbd).x0.dtype = (set_objective cfg X y lmbd).X.dtype ∧
    (set_objective cfg X y lmbd).X.device = cfg.device :=
  ⟨rfl, rfl, rfl, rfl, rfl⟩

/-- Claim C6: after problem setup the stored label vector has, at every index,
value 1.0 if the input label is positive and 0.0 otherwise (stated through the
total lookup, which also forces the two vectors to have the same length). -/
theorem labels_binarized (cfg : Config) (X : Tensor2) (y : Tensor1) (lmbd : ℚ)
    (i : Nat) :
    (set_objective cfg X y lmbd).y.data[i]? =
      (y.data[i]?).map (fun v => if 0 < v then (1 : ℚ) else 0) := by
  simp [set_objective]

/-- Claim C7: for every solver name other than `pgd` and every `n_iter > 0`,
both run paths raise `NotImplementedError` and produce no result; for `pgd`
the adapter never raises that error (the stochastic part assumes a positive
integer batch size, without which torch's DataLoader construction already
rejects the call before the solver dispatch). -/
theorem unsupported_solver_not_implemented (s : SolverState) (n b : Nat)
    (hn : 0 < n) (hb : s.cfg.batch_size = BatchSize.num b) (hbpos : 0 < b) :
    (s.cfg.solver ≠ "pgd" →
      (run_stochastic s n).1 = Except.error PyError.NotImplementedError ∧
      (run_full_batch s n).1 = Except.error PyError.NotImplementedError) ∧
    (s.cfg.solver = "pgd" →
      (run_stochastic s n).1 ≠ Except.error PyError.NotImplementedError ∧
      (run_full_batch s n).1 ≠ Except.error PyError.NotImplementedError) := by
  constructor
  · intro hs
    rw [run_stochastic_eq, run_full_batch_eq]
    simp [stochErr, fullErr, dataLoaderCheck, hb, hbpos, hs]
  · intro hs
    rw [run_stochastic_eq, run_full_batch_eq]
    simp [stochErr, fullErr, dataLoaderCheck, hb, hbpos, hs]

/-- Witness for C7: solver name `apgd` makes both paths raise
`NotImplementedError`; solver name `pgd` makes neither path raise it. -/
theorem unsupported_solver_not_implemented_witness :
    ((run_stochastic sBadSolver 1).1 = Except.error PyError.NotImplementedError ∧
     (run_full_batch sBadSolver 1).1 = Except.error PyError.NotImplementedError) ∧
    ((run_stochastic sStoch 1).1 ≠ Except.error PyError.NotImplementedError ∧
     (run_full_batch sStoch 1).1 ≠ Except.error PyError.NotImplementedError) :=
  ⟨(unsupported_solver_not_implemented sBadSolver 1 32 (by decide) rfl
      (by decide)).1 (by decide),
   (unsupported_solver_not_implemented sStoch 1 32 (by decide) rfl
      (by decide)).2 rfl⟩

/-- Claim C8: the stored initial point stays the all-zero vector across every
sequence of `run` calls, and a `run` with budget `n_iter` produces the same
outcome (same `beta`, same step count) whether or not other `run` calls
preceded it — no state is resumed between calls. -/
theorem runs_start_fresh (cfg : Config) (X : Tensor2) (y : Tensor1) (lmbd : ℚ)
    (ns : List Nat) (n : Nat) :
    (runSeq (set_objective cfg X y lmbd) ns).x0 =
      (set_objective cfg X y lmbd).x0 ∧
    (set_objective cfg X y lmbd).x0.data = List.replicate X.nFeatures 0 ∧
    (run (runSeq (set_objective cfg X y lmbd) ns) n).1.map SolverState.beta =
      (run (set_objective cfg X y lmbd) n).1.map SolverState.beta ∧
    (run (runSeq (set_objective cfg X y lmbd) ns) n).2 =
      (run (set_objective cfg X y lmbd) n).2 := by
  obtain ⟨hcfg, hx0⟩ := runSeq_preserves (set_objective cfg X y lmbd) ns
  refine ⟨hx0, rfl, ?_, ?_⟩
  · rw [run_eq, run_eq]
    by_cases hn : n = 0 <;> simp [hn, hcfg, hx0, Except.map]
  · rw [run_eq, run_eq]
    by_cases hn : n = 0 <;> simp [hn]

/-- Claim C9: the skip-check never inspects the problem data or the
regularization strength — two calls with the same configuration and cuda
availability but different `X`, `y`, `lmbd` return the same pair. -/
theorem skip_ignores_problem_data (cfg : Config) (cuda_available : Bool)
    (X1 X2 : Tensor2) (y1 y2 : Tensor1) (l1 l2 : ℚ) :
    skip cfg cuda_available X1 y1 l1 = skip cfg cuda_available X2 y2 l2 := rfl

/-- Claim C10: the stored label vector always has float64 dtype, so when the
design matrix is single precision the label dtype differs from the initial
point's dtype. -/
theorem labels_always_double (cfg : Config) (X : Tensor2) (y : Tensor1)
    (lmbd : ℚ) :
    (set_objective cfg X y lmbd).y.dtype = DType.float64 ∧
    (X.dtype = DType.float32 →
      (set_objective cfg X y lmbd).y.dtype ≠
        (set_objective cfg X y lmbd).x0.dtype) := by
  refine ⟨rfl, fun h => ?_⟩
  simp [set_objective, h]

/-- Witness for C10 at a single-precision input matrix. -/
theorem labels_always_double_witness :
    (set_objective cfgStoch Xex yex 1).y.dtype = DType.float64 ∧
    (set_objective cfgStoch Xex yex 1).y.dtype ≠
      (set_objective cfgStoch Xex yex 1).x0.dtype :=
  ⟨(labels_always_double cfgStoch Xex yex 1).1,
   (labels_always_double cfgStoch Xex yex 1).2 rfl⟩

end Chop
